import Mathlib

/-!
Verification development for the ERAP repository server (`erap.py`).

The embedding models, from the source:
  * `performRepositoryOperation` — the command dispatcher
    (`ERAPProtocol.performRepositoryOperation`, lines 75–150);
  * `handleClientStep` — one iteration of the per-connection loop
    (`ERAPProtocol.handle_client`, lines 44–64) together with
    `parseClientRequest` (lines 66–71);
  * `lockTrace` — the sequence of lock / store-call / reply-building
    events each dispatcher branch performs, transcribed branch by branch
    from the same source lines.

The repository object itself (`self.repository`) lives in a module that is
not part of the sources; its operations are modelled from the spec (§4.3).
-/

namespace Erap

/-- Modelled from the spec (§3, §4.3): the store of the collaborating
`repository` object, whose module is not among the sources.  A mapping from
textual keys to ordered sequences of signed integers, keys unique and kept
in insertion order (Python `dict` semantics). -/
structure Repository where
  entries : List (String × List Int)
deriving DecidableEq

/-- Python-`dict` lookup over the insertion-ordered entry list. -/
def findEntry : List (String × List Int) → String → Option (List Int)
  | [], _ => none
  | e :: es, k => if e.1 = k then some e.2 else findEntry es k

/-- Modelled from the spec (§4.3): `add(key, value)` appends `value` to the
key's sequence, creating the key (at the end, in insertion order) if absent. -/
def addEntry : List (String × List Int) → String → Int → List (String × List Int)
  | [], k, v => [(k, [v])]
  | e :: es, k, v => if e.1 = k then (e.1, e.2 ++ [v]) :: es else e :: addEntry es k v

/-- Modelled from the spec (§4.3): `set(key, values)` replaces the key's
entire sequence, creating the key if absent. -/
def setEntry : List (String × List Int) → String → List Int → List (String × List Int)
  | [], k, vs => [(k, vs)]
  | e :: es, k, vs => if e.1 = k then (e.1, vs) :: es else e :: setEntry es k vs

/-- Modelled from the spec (§4.3): `delete(key)` removes the key, signalling
key-missing (Python `KeyError`, as the comment on line 93 of the source says)
when absent; `none` is the `KeyError` signal. -/
def deleteEntry : List (String × List Int) → String → Option (List (String × List Int))
  | [], _ => none
  | e :: es, k => if e.1 = k then some es else (deleteEntry es k).map (e :: ·)

def Repository.find (repo : Repository) (key : String) : Option (List Int) :=
  findEntry repo.entries key

def Repository.add (repo : Repository) (key : String) (value : Int) : Repository :=
  ⟨addEntry repo.entries key value⟩

def Repository.set (repo : Repository) (key : String) (values : List Int) : Repository :=
  ⟨setEntry repo.entries key values⟩

def Repository.delete (repo : Repository) (key : String) : Option Repository :=
  (deleteEntry repo.entries key).map Repository.mk

/-- Modelled from the spec (§4.3): `keys()` returns the current keys, in
insertion order (deterministic listing, §3). -/
def Repository.keys (repo : Repository) : List String :=
  repo.entries.map (·.1)

/-- Modelled from the spec (§4.3): `getValue(key)` (the spec's `getLatest`)
returns the most recently appended element, or a not-found signal when the
key is absent or its sequence is empty (§4.2 table, `get` row). -/
def Repository.getValue (repo : Repository) (key : String) : Option Int :=
  (repo.find key).bind List.getLast?

/-- Modelled from the spec (§4.3): `getValues(key)` (the spec's `getAll`)
returns the full sequence, or a not-found signal when the key is absent. -/
def Repository.getValues (repo : Repository) (key : String) : Option (List Int) :=
  repo.find key

/-- Modelled from the spec (§4.2, §4.3): `aggregate(key, functionName)`
computes a named aggregate (sum/min/max/avg registry) over the key's
sequence; one not-found signal covers both an unknown key and an unknown
function name.  Averages are taken over integers here. -/
def Repository.aggregate (repo : Repository) (key : String) (func : String) : Option Int :=
  match repo.find key with
  | none => none
  | some vs =>
    match func with
    | "sum" => some (vs.foldl (· + ·) 0)
    | "min" => match vs with
      | [] => none
      | v :: rest => some (rest.foldl min v)
    | "max" => match vs with
      | [] => none
      | v :: rest => some (rest.foldl max v)
    | "avg" => match vs with
      | [] => none
      | _ :: _ => some ((vs.foldl (· + ·) 0) / (vs.length : Int))
    | _ => none

/-- Modelled from the spec (§4.3): `reset()` clears all entries. -/
def Repository.reset (_repo : Repository) : Repository :=
  ⟨[]⟩

/-- Python `str.lower()`, character by character (ASCII as in the
protocol's operation names). -/
def pyLower (s : String) : String :=
  String.mk (s.data.map Char.toLower)

/-- Python `sep.join(xs)`. -/
def pyJoin (sep : String) : List String → String
  | [] => ""
  | [x] => x
  | x :: xs => x ++ sep ++ pyJoin sep xs

/-- Python `str.strip()`: whitespace removed from both ends (as `int()`
does before parsing). -/
def pyStrip (s : String) : String :=
  String.mk (((s.data.dropWhile Char.isWhitespace).reverse.dropWhile Char.isWhitespace).reverse)

/-- Splitter of Python `str.split(" ")`: split on every single space,
keeping empty tokens; splitting the empty string yields `[""]`. -/
def splitOnSpaceAux : List Char → List Char → List (List Char)
  | [], acc => [acc.reverse]
  | c :: cs, acc =>
    if c = ' ' then acc.reverse :: splitOnSpaceAux cs []
    else splitOnSpaceAux cs (c :: acc)

def pySplitSpace (s : String) : List String :=
  (splitOnSpaceAux s.data []).map String.mk

/-- Python `int(s)`: surrounding whitespace is ignored, then an optional
sign followed by a non-empty digit string; anything else raises
`ValueError`, modelled as `none`.  (Digit-group underscores are not
reproduced; no token in play contains them.) -/
def digitsToNat? (cs : List Char) : Option Nat :=
  if cs = [] then none
  else if cs.all Char.isDigit then
    some (cs.foldl (fun acc c => 10 * acc + (c.toNat - 48)) 0)
  else none

def pyInt? (s : String) : Option Int :=
  match (pyStrip s).data with
  | [] => none
  | '+' :: ds => (digitsToNat? ds).map Int.ofNat
  | '-' :: ds => (digitsToNat? ds).map (fun n => -(n : Int))
  | ds => (digitsToNat? ds).map Int.ofNat

/-- The list comprehension `[int(_) for _ in tokens]` (line 86): built
element by element, `ValueError` (`none`) on the first non-integer token,
before any store call happens. -/
def intListOfTokens : List String → Option (List Int)
  | [] => some []
  | t :: ts =>
    match pyInt? t with
    | none => none
    | some v => (intListOfTokens ts).map (v :: ·)

/-- Python `repr` of a string as it appears inside an f-string of a list,
e.g. `'add'`.  (Python's escaping of quotes and backslashes inside the
token is not reproduced; the protocol's space-split tokens in play contain
neither.) -/
def pyStrRepr (s : String) : String :=
  "'" ++ s ++ "'"

/-- Python f-string rendering of a list of strings, e.g. `['add']`. -/
def pyStrListRepr (ts : List String) : String :=
  "[" ++ pyJoin ", " (ts.map pyStrRepr) ++ "]"

/-- Python f-string rendering of a list of ints, e.g. `[1, 2, 3]`. -/
def pyIntListRepr (vs : List Int) : String :=
  "[" ++ pyJoin ", " (vs.map toString) ++ "]"

/-- Python's `repositoryOperation[i]`: `none` models the raised
`IndexError` when the index is out of range. -/
def pyIndex? : List String → Nat → Option String
  | [], _ => none
  | x :: _, 0 => some x
  | _ :: xs, n + 1 => pyIndex? xs n

/-- Reply of the two `IndexError` / generic `Exception` handlers and of the
unrecognized-operation branch (lines 138, 141, 150). -/
def malformedReply (repositoryOperation : List String) : String :=
  "ERROR, malformed operation " ++ pyStrListRepr repositoryOperation ++ "\n"

/-- Reply of the `ValueError` handler (line 144). -/
def typeConvReply (repositoryOperation : List String) : String :=
  "ERROR, type conversion failed in " ++ pyStrListRepr repositoryOperation ++ "\n"

/-- Reply of the `KeyError` handler (line 147). -/
def keyMissingReply (repositoryOperation : List String) : String :=
  "ERROR, key missing in " ++ pyStrListRepr repositoryOperation ++ "\n"

/-- `ERAPProtocol.performRepositoryOperation` (lines 75–150): dispatch one
token list to the store and produce the reply string, threading the store
state explicitly.  Python's `repositoryOperation[i]` raising `IndexError`
is the `none` case of `[i]?`; the `except` clauses at lines 139–150 are the
error-reply branches. -/
def performRepositoryOperation (repositoryOperation : List String) (repo : Repository) :
    String × Repository :=
  match pyIndex? repositoryOperation 0 with
  | none => (malformedReply repositoryOperation, repo)
  | some tok0 =>
    let operation := pyLower tok0
    if operation = "add" then
      match pyIndex? repositoryOperation 1, pyIndex? repositoryOperation 2 with
      | some key, some vtok =>
        match pyInt? vtok with
        | some value =>
          ("OK, added " ++ key ++ " -> " ++ toString value ++ "\n", repo.add key value)
        | none => (typeConvReply repositoryOperation, repo)
      | _, _ => (malformedReply repositoryOperation, repo)
    else if operation = "set" then
      match pyIndex? repositoryOperation 1 with
      | some key =>
        match intListOfTokens (repositoryOperation.drop 2) with
        | some values =>
          ("OK, set " ++ key ++ " -> " ++ pyIntListRepr values ++ "\n", repo.set key values)
        | none => (typeConvReply repositoryOperation, repo)
      | none => (malformedReply repositoryOperation, repo)
    else if operation = "delete" then
      match pyIndex? repositoryOperation 1 with
      | some key =>
        match repo.delete key with
        | some repo' => ("OK, deleted key " ++ key ++ "\n", repo')
        | none => (keyMissingReply repositoryOperation, repo)
      | none => (malformedReply repositoryOperation, repo)
    else if operation = "keys" then
      (match repo.keys with
       | [] => "OK, empty repository\n"
       | ks => "OK " ++ pyJoin ", " ks ++ "\n", repo)
    else if operation = "get" then
      match pyIndex? repositoryOperation 1 with
      | some key =>
        match repo.getValue key with
        | some value => ("OK " ++ toString value ++ "\n", repo)
        | none => ("ERROR, missing key " ++ key ++ "\n", repo)
      | none => (malformedReply repositoryOperation, repo)
    else if operation = "gets" then
      match pyIndex? repositoryOperation 1 with
      | some key =>
        match repo.getValues key with
        | some values => ("OK " ++ pyJoin ", " (values.map toString) ++ "\n", repo)
        | none => ("ERROR, missing key " ++ key ++ "\n", repo)
      | none => (malformedReply repositoryOperation, repo)
    else if operation = "aggregate" then
      match pyIndex? repositoryOperation 1, pyIndex? repositoryOperation 2 with
      | some key, some func =>
        match repo.aggregate key func with
        | some aggregated => ("OK " ++ toString aggregated ++ "\n", repo)
        | none =>
          ("ERROR, missing key or function in " ++
            pyStrListRepr (repositoryOperation.drop 1) ++ "\n", repo)
      | _, _ => (malformedReply repositoryOperation, repo)
    else if operation = "reset" then
      ("OK\n", repo.reset)
    else (malformedReply repositoryOperation, repo)

/-- Strict UTF-8 decoding of a received chunk, as Python's
`bytes.decode("utf-8")`: `none` models a raised `UnicodeDecodeError`
(invalid lead byte, missing or malformed continuation bytes, overlong
forms, surrogates, and code points beyond U+10FFFF are all rejected). -/
def utf8Cont (b : Nat) : Bool :=
  0x80 ≤ b && b < 0xC0

def decodeUtf8 : List Nat → Option (List Char)
  | [] => some []
  | b :: rest =>
    if b < 0x80 then
      (decodeUtf8 rest).map (Char.ofNat b :: ·)
    else if 0xC2 ≤ b && b < 0xE0 then
      match rest with
      | c1 :: rest' =>
        if utf8Cont c1 then
          (decodeUtf8 rest').map (Char.ofNat ((b - 0xC0) * 64 + (c1 - 0x80)) :: ·)
        else none
      | [] => none
    else if 0xE0 ≤ b && b < 0xF0 then
      match rest with
      | c1 :: c2 :: rest' =>
        let cp := (b - 0xE0) * 4096 + (c1 - 0x80) * 64 + (c2 - 0x80)
        if utf8Cont c1 && utf8Cont c2 && 0x800 ≤ cp &&
            !(0xD800 ≤ cp && cp ≤ 0xDFFF) then
          (decodeUtf8 rest').map (Char.ofNat cp :: ·)
        else none
      | _ => none
    else if 0xF0 ≤ b && b < 0xF5 then
      match rest with
      | c1 :: c2 :: c3 :: rest' =>
        let cp := (b - 0xF0) * 262144 + (c1 - 0x80) * 4096 + (c2 - 0x80) * 64 + (c3 - 0x80)
        if utf8Cont c1 && utf8Cont c2 && utf8Cont c3 && 0x10000 ≤ cp && cp ≤ 0x10FFFF then
          (decodeUtf8 rest').map (Char.ofNat cp :: ·)
        else none
      | _ => none
    else none

/-- Python `str.rstrip()` (line 68): drop trailing whitespace. -/
def pyRstrip (s : String) : String :=
  String.mk ((s.data.reverse.dropWhile Char.isWhitespace).reverse)

/-- Python `str.startswith(p)` (line 53): character-sequence match. -/
def pyStartswith (s p : String) : Bool :=
  p.data.isPrefixOf s.data

/-- `ERAPProtocol.parseClientRequest` (lines 66–71) after a successful
decode: `request.decode("utf-8").rstrip()` then `.split(" ")`. -/
def parseClientRequest (request : String) : List String :=
  pySplitSpace (pyRstrip request)

/-- Outcome of one iteration of the per-connection loop in
`ERAPProtocol.handle_client` (lines 44–64). -/
inductive HandlerStep where
  /-- The socket was closed and the loop exited (`break`). -/
  | closed
  /-- An exception propagated out of the loop body uncaught, terminating
  the handler thread. -/
  | crashed
  /-- A reply was sent over the socket and the loop continues with the
  repository in the given state. -/
  | reply (response : String) (repo : Repository)
deriving DecidableEq

/-- One iteration of `ERAPProtocol.handle_client` (lines 44–64) on a
received chunk `data`.  `data.decode()` is evaluated first inside the
`logger.debug` f-string at line 49, before any `try`, so a chunk that is
not valid UTF-8 raises `UnicodeDecodeError` there and the handler thread
dies (`crashed`); the TODO at line 50 records the missing handling.  An
empty read or a decoded text starting with `"quit"` closes the connection
(lines 53–59); every other chunk is parsed and dispatched, and the reply
is sent (lines 60–64). -/
def handleClientStep (data : List Nat) (repo : Repository) : HandlerStep :=
  match decodeUtf8 data with
  | none => HandlerStep.crashed
  | some chars =>
    let text := String.mk chars
    if data.length = 0 || pyStartswith text "quit" then HandlerStep.closed
    else
      let repositoryOperation := parseClientRequest text
      let result := performRepositoryOperation repositoryOperation repo
      HandlerStep.reply result.1 result.2

/-- The events a dispatcher branch performs, in program order: acquiring
and releasing `self.repositoryLock`, calling into `self.repository`,
building a reply string, and `.encode()`-ing it. -/
inductive LockEvent where
  | acquire
  | release
  | storeCall
  | buildReply
  | encodeReply
deriving DecidableEq

/-- The event sequence of each branch of
`ERAPProtocol.performRepositoryOperation` (lines 75–150), transcribed
branch by branch from the source:

  * `add` / `set` / `get` / `gets` / `aggregate` / `reset` — the
    `with self.repositoryLock:` block contains only the store call; the
    reply f-string is built and `.encode()`d after the block.
  * `delete` — same on success; on `KeyError` the exception unwinds the
    `with` block (releasing the lock) and the handler at line 147 builds
    and encodes the reply.
  * `keys` (lines 96–103) — the `with` block contains the `keys()` call of
    the `if`, for a non-empty store a second `keys()` call in the join,
    **and the construction of the reply string** (lines 99 and 101 are
    inside the block); line 102 then reads `keys()` again outside the
    lock for logging, and `.encode()` runs at line 103 outside the lock.
  * token-conversion and argument-count failures, and unrecognized
    operations — the failure happens before the lock is taken and the
    `except` handler builds and encodes the reply with no lock activity. -/
def lockTrace (repositoryOperation : List String) (repo : Repository) : List LockEvent :=
  match pyIndex? repositoryOperation 0 with
  | none => [LockEvent.buildReply, LockEvent.encodeReply]
  | some tok0 =>
    let operation := pyLower tok0
    if operation = "add" then
      match pyIndex? repositoryOperation 1, pyIndex? repositoryOperation 2 with
      | some _, some vtok =>
        match pyInt? vtok with
        | some _ =>
          [LockEvent.acquire, LockEvent.storeCall, LockEvent.release,
            LockEvent.buildReply, LockEvent.encodeReply]
        | none => [LockEvent.buildReply, LockEvent.encodeReply]
      | _, _ => [LockEvent.buildReply, LockEvent.encodeReply]
    else if operation = "set" then
      match pyIndex? repositoryOperation 1 with
      | some _ =>
        match intListOfTokens (repositoryOperation.drop 2) with
        | some _ =>
          [LockEvent.acquire, LockEvent.storeCall, LockEvent.release,
            LockEvent.buildReply, LockEvent.encodeReply]
        | none => [LockEvent.buildReply, LockEvent.encodeReply]
      | none => [LockEvent.buildReply, LockEvent.encodeReply]
    else if operation = "delete" then
      match pyIndex? repositoryOperation 1 with
      | some _ =>
        [LockEvent.acquire, LockEvent.storeCall, LockEvent.release,
          LockEvent.buildReply, LockEvent.encodeReply]
      | none => [LockEvent.buildReply, LockEvent.encodeReply]
    else if operation = "keys" then
      match repo.keys with
      | [] =>
        [LockEvent.acquire, LockEvent.storeCall, LockEvent.buildReply, LockEvent.release,
          LockEvent.storeCall, LockEvent.encodeReply]
      | _ :: _ =>
        [LockEvent.acquire, LockEvent.storeCall, LockEvent.storeCall, LockEvent.buildReply,
          LockEvent.release, LockEvent.storeCall, LockEvent.encodeReply]
    else if operation = "get" then
      match pyIndex? repositoryOperation 1 with
      | some _ =>
        [LockEvent.acquire, LockEvent.storeCall, LockEvent.release,
          LockEvent.buildReply, LockEvent.encodeReply]
      | none => [LockEvent.buildReply, LockEvent.encodeReply]
    else if operation = "gets" then
      match pyIndex? repositoryOperation 1 with
      | some _ =>
        [LockEvent.acquire, LockEvent.storeCall, LockEvent.release,
          LockEvent.buildReply, LockEvent.encodeReply]
      | none => [LockEvent.buildReply, LockEvent.encodeReply]
    else if operation = "aggregate" then
      match pyIndex? repositoryOperation 1, pyIndex? repositoryOperation 2 with
      | some _, some _ =>
        [LockEvent.acquire, LockEvent.storeCall, LockEvent.release,
          LockEvent.buildReply, LockEvent.encodeReply]
      | _, _ => [LockEvent.buildReply, LockEvent.encodeReply]
    else if operation = "reset" then
      [LockEvent.acquire, LockEvent.storeCall, LockEvent.release,
        LockEvent.buildReply, LockEvent.encodeReply]
    else [LockEvent.buildReply, LockEvent.encodeReply]

/-- Whether a `buildReply` event occurs while the lock is held, scanning
the trace with the current lock state. -/
def buildInsideLock : List LockEvent → Bool → Bool
  | [], _ => false
  | LockEvent.acquire :: es, _ => buildInsideLock es true
  | LockEvent.release :: es, _ => buildInsideLock es false
  | LockEvent.buildReply :: es, held => held || buildInsideLock es held
  | LockEvent.storeCall :: es, held => buildInsideLock es held
  | LockEvent.encodeReply :: es, held => buildInsideLock es held

/-- Whether an `encodeReply` event occurs while the lock is held. -/
def encodeInsideLock : List LockEvent → Bool → Bool
  | [], _ => false
  | LockEvent.acquire :: es, _ => encodeInsideLock es true
  | LockEvent.release :: es, _ => encodeInsideLock es false
  | LockEvent.encodeReply :: es, held => held || encodeInsideLock es held
  | LockEvent.storeCall :: es, held => encodeInsideLock es held
  | LockEvent.buildReply :: es, held => encodeInsideLock es held

/-- Helper: the list comprehension over `set` arguments fails (raises
`ValueError`, i.e. returns `none`) as soon as any argument is not an
integer. -/
theorem intListOfTokens_isNone {tok : String} (hbad : pyInt? tok = none) :
    ∀ {args : List String}, tok ∈ args → intListOfTokens args = none := by
  intro args hmem
  induction args with
  | nil => cases hmem
  | cons t ts ih =>
    rcases List.mem_cons.mp hmem with h | h
    · subst h; simp [intListOfTokens, hbad]
    · unfold intListOfTokens
      cases hpt : pyInt? t with
      | none => rfl
      | some v => simp [ih h]

/-- Helper: after `add`, the key's stored sequence is the old sequence
with the new value appended. -/
theorem findEntry_addEntry (es : List (String × List Int)) (k : String) (v : Int) :
    findEntry (addEntry es k v) k = some (((findEntry es k).getD []) ++ [v]) := by
  induction es with
  | nil => simp [findEntry, addEntry]
  | cons e es ih =>
    by_cases h : e.1 = k
    · simp [findEntry, addEntry, h]
    · simp [findEntry, addEntry, h, ih]

/-- Helper: `getValue` after `add` returns the value just appended — the
most recently appended element. -/
theorem getValue_add (repo : Repository) (key : String) (v : Int) :
    (repo.add key v).getValue key = some v := by
  unfold Repository.getValue Repository.add Repository.find
  simp [findEntry_addEntry, List.getLast?_concat]

/-- Claim C1: for every token list handed to the dispatcher (in
particular every one produced by parsing an accepted non-quit command
line) `performRepositoryOperation` returns exactly one reply string,
terminated by a newline and beginning with "OK" or with "ERROR".  The
embedding is a total function — every branch, including the `except`
handlers of lines 139–150, yields such a reply, so no fault escapes the
dispatch boundary. -/
theorem c1_dispatch_single_reply_ok_or_error (tokens : List String) (repo : Repository) :
    (∃ u, (performRepositoryOperation tokens repo).1 = u ++ "\n") ∧
      ((performRepositoryOperation tokens repo).1.data.take 2 = ['O', 'K'] ∨
        (performRepositoryOperation tokens repo).1.data.take 5 = ['E', 'R', 'R', 'O', 'R']) := by
  simp only [performRepositoryOperation]
  repeat' split
  all_goals
    first
      | exact ⟨⟨_, rfl⟩, Or.inl rfl⟩
      | exact ⟨⟨_, rfl⟩, Or.inr rfl⟩
      | exact ⟨⟨"OK", rfl⟩, Or.inl rfl⟩
      | exact ⟨⟨"OK, empty repository", rfl⟩, Or.inl rfl⟩

/-- Claim C2 (code bug): a received chunk that is not valid UTF-8 — here
the single byte 0xFF — is not logged-and-dropped: `handle_client` decodes
it inside the `logger.debug` f-string at line 49, before any try/except,
so the `UnicodeDecodeError` propagates uncaught and the handler
terminates (the `except UnicodeDecodeError` in `parseClientRequest` is
unreachable for it, and the TODO at line 50 records the missing
handling). -/
theorem c2_invalid_utf8_chunk_crashes_handler (repo : Repository) :
    handleClientStep [255] repo = HandlerStep.crashed := rfl

/-- Claim C3, counterexample: the decoded line "QUIT\n" has first token
`quit` in upper case, yet the handler does not close the connection — the
line is dispatched as a command and answered with a malformed-operation
reply, because the quit test at line 53 is a case-sensitive
`startswith("quit")`. -/
theorem c3_counterexample_uppercase_quit_dispatched :
    handleClientStep [81, 85, 73, 84, 10] ⟨[]⟩ =
        HandlerStep.reply "ERROR, malformed operation ['QUIT']\n" ⟨[]⟩ ∧
      handleClientStep [81, 85, 73, 84, 10] ⟨[]⟩ ≠ HandlerStep.closed := by
  constructor
  · decide
  · decide

/-- Claim C3 as amended: only a decoded line beginning with the exact
lowercase text "quit" closes the connection (with no reply sent); a
decoded non-empty line without that lowercase beginning — including
`quit` in any other letter case — is parsed and dispatched, and its
single reply is sent. -/
theorem c3_amended_quit_close_needs_lowercase (data : List Nat) (repo : Repository)
    (chars : List Char) (hdec : decodeUtf8 data = some chars) :
    (pyStartswith (String.mk chars) "quit" = true →
      handleClientStep data repo = HandlerStep.closed) ∧
    (data ≠ [] → pyStartswith (String.mk chars) "quit" = false →
      handleClientStep data repo =
        HandlerStep.reply
          (performRepositoryOperation (parseClientRequest (String.mk chars)) repo).1
          (performRepositoryOperation (parseClientRequest (String.mk chars)) repo).2) := by
  constructor
  · intro hq
    simp [handleClientStep, hdec, hq]
  · intro hne hq
    have hlen : data.length ≠ 0 := by simpa [List.length_eq_zero] using hne
    simp [handleClientStep, hdec, hq, hlen]

/-- Witness for C3 as amended: the chunk "Quit\n" (capital Q) does not
close the connection; it is dispatched and replied to. -/
theorem c3_amended_quit_close_needs_lowercase_witness :
    handleClientStep [81, 117, 105, 116, 10] ⟨[]⟩ =
      HandlerStep.reply
        (performRepositoryOperation
          (parseClientRequest (String.mk ['Q', 'u', 'i', 't', '\n'])) ⟨[]⟩).1
        (performRepositoryOperation
          (parseClientRequest (String.mk ['Q', 'u', 'i', 't', '\n'])) ⟨[]⟩).2 :=
  (c3_amended_quit_close_needs_lowercase [81, 117, 105, 116, 10] ⟨[]⟩
    ['Q', 'u', 'i', 't', '\n'] rfl).2 (by decide) (by decide)

/-- Claim C4: a `set` command in which some value argument does not parse
as an integer is answered with the type-conversion error reply and the
store is returned unchanged — the value list is built in full (line 86)
before `repository.set` is called, so the failure happens before any
mutation. -/
theorem c4_set_bad_int_type_error_store_unchanged (key : String) (args : List String)
    (repo : Repository) (tok : String) (hmem : tok ∈ args) (hbad : pyInt? tok = none) :
    performRepositoryOperation ("set" :: key :: args) repo =
      (typeConvReply ("set" :: key :: args), repo) := by
  have hunf : performRepositoryOperation ("set" :: key :: args) repo =
      (match intListOfTokens args with
       | some values =>
         ("OK, set " ++ key ++ " -> " ++ pyIntListRepr values ++ "\n", repo.set key values)
       | none => (typeConvReply ("set" :: key :: args), repo)) := rfl
  rw [hunf, intListOfTokens_isNone hbad hmem]

/-- Witness for C4: the spec's scenario `set y 1 two 3` receives the
type-conversion error reply and leaves the (empty) store untouched. -/
theorem c4_set_bad_int_type_error_store_unchanged_witness :
    performRepositoryOperation ["set", "y", "1", "two", "3"] ⟨[]⟩ =
        (typeConvReply ["set", "y", "1", "two", "3"], ⟨[]⟩) ∧
      typeConvReply ["set", "y", "1", "two", "3"] =
        "ERROR, type conversion failed in ['set', 'y', '1', 'two', '3']\n" :=
  ⟨c4_set_bad_int_type_error_store_unchanged "y" ["1", "two", "3"] ⟨[]⟩ "two"
    (by decide) (by decide), by decide⟩

/-- Claim C5: the chunk "add\n" — an `add` with no arguments — is
answered with exactly `ERROR, malformed operation ['add']` on any store
state, the store is unchanged, and the handler neither closes the
connection nor crashes (the step is a `reply`, not `closed` or
`crashed`). -/
theorem c5_add_missing_args_malformed_reply (repo : Repository) :
    handleClientStep [97, 100, 100, 10] repo =
      HandlerStep.reply "ERROR, malformed operation ['add']\n" repo := by
  show HandlerStep.reply (malformedReply ["add"]) repo = _
  rw [show malformedReply ["add"] = "ERROR, malformed operation ['add']\n" from by decide]

/-- Claim C6: `get key` replies `ERROR, missing key <key>` exactly when
the store reports the key absent (or its sequence empty), replies
`OK <value>` with the most recently appended value when present — as the
last conjunct shows, after `add` the reported value is the value just
appended — and never mutates the store or fails. -/
theorem c6_get_missing_key_error_or_latest_value (repo : Repository) (key : String) :
    (performRepositoryOperation ["get", key] repo).2 = repo ∧
    (repo.getValue key = none →
      (performRepositoryOperation ["get", key] repo).1 = "ERROR, missing key " ++ key ++ "\n") ∧
    (∀ v, repo.getValue key = some v →
      (performRepositoryOperation ["get", key] repo).1 = "OK " ++ toString v ++ "\n") ∧
    (∀ v, (repo.add key v).getValue key = some v) := by
  have hunf : performRepositoryOperation ["get", key] repo =
      (match repo.getValue key with
       | some value => ("OK " ++ toString value ++ "\n", repo)
       | none => ("ERROR, missing key " ++ key ++ "\n", repo)) := rfl
  refine ⟨?_, ?_, ?_, getValue_add repo key⟩
  · rw [hunf]; cases repo.getValue key <;> rfl
  · intro h; rw [hunf, h]
  · intro v h; rw [hunf, h]

/-- Witness for C6: `get x` on the empty store reports the key missing;
on a store where `x` holds the sequence 1, 5 it replies with 5, the most
recently appended value. -/
theorem c6_get_missing_key_error_or_latest_value_witness :
    (performRepositoryOperation ["get", "x"] ⟨[]⟩).1 = "ERROR, missing key " ++ "x" ++ "\n" ∧
      (performRepositoryOperation ["get", "x"] ⟨[("x", [1, 5])]⟩).1 =
        "OK " ++ toString (5 : Int) ++ "\n" :=
  ⟨(c6_get_missing_key_error_or_latest_value ⟨[]⟩ "x").2.1 rfl,
    (c6_get_missing_key_error_or_latest_value ⟨[("x", [1, 5])]⟩ "x").2.2.1 5 (by decide)⟩

/-- Claim C7: `keys` succeeds on every store state — with keys present
the reply is `OK ` followed by the keys joined by ", ", on an empty store
it is `OK, empty repository` — the reply always begins with "OK" (never
"ERROR"), and the store is unchanged. -/
theorem c7_keys_always_ok_reply (repo : Repository) :
    (performRepositoryOperation ["keys"] repo).2 = repo ∧
    (repo.keys = [] →
      (performRepositoryOperation ["keys"] repo).1 = "OK, empty repository\n") ∧
    (repo.keys ≠ [] →
      (performRepositoryOperation ["keys"] repo).1 = "OK " ++ pyJoin ", " repo.keys ++ "\n") ∧
    (performRepositoryOperation ["keys"] repo).1.data.take 2 = ['O', 'K'] := by
  have hunf : performRepositoryOperation ["keys"] repo =
      (match repo.keys with
       | [] => "OK, empty repository\n"
       | ks => "OK " ++ pyJoin ", " ks ++ "\n", repo) := rfl
  refine ⟨by rw [hunf], ?_, ?_, ?_⟩
  · intro h; rw [hunf]; simp [h]
  · intro h; rw [hunf]
    rcases hk : repo.keys with _ | ⟨k, ks⟩
    · exact absurd hk h
    · simp [hk]
  · rw [hunf]
    rcases hk : repo.keys with _ | ⟨k, ks⟩ <;> simp [hk]

/-- Witness for C7: `keys` on the empty store and on a two-key store. -/
theorem c7_keys_always_ok_reply_witness :
    (performRepositoryOperation ["keys"] ⟨[]⟩).1 = "OK, empty repository\n" ∧
      (performRepositoryOperation ["keys"] ⟨[("a", [1]), ("b", [2])]⟩).1 =
        "OK " ++ pyJoin ", " (Repository.keys ⟨[("a", [1]), ("b", [2])]⟩) ++ "\n" :=
  ⟨(c7_keys_always_ok_reply ⟨[]⟩).2.1 rfl,
    (c7_keys_always_ok_reply ⟨[("a", [1]), ("b", [2])]⟩).2.2.1 (by decide)⟩

/-- Claim C8, counterexample: in the `keys` branch (lines 96–103) the
reply string is constructed at lines 99 and 101 inside the
`with self.repositoryLock:` block, so the claim that every branch builds
the reply outside the critical section is false — on a one-key store and
on the empty store alike. -/
theorem c8_counterexample_keys_reply_built_inside_lock :
    buildInsideLock (lockTrace ["keys"] ⟨[("x", [1])]⟩) false = true ∧
      buildInsideLock (lockTrace ["keys"] ⟨[]⟩) false = true := by
  constructor <;> decide

/-- Claim C8 as amended: in every branch the lock is released before the
reply is `.encode()`d, and in every branch except `keys` the reply string
is also built after the lock is released; the `keys` branch alone builds
its reply string inside the critical section. -/
theorem c8_amended_lock_released_before_encode (tokens : List String) (repo : Repository) :
    encodeInsideLock (lockTrace tokens repo) false = false ∧
      ((pyIndex? tokens 0).map pyLower ≠ some "keys" →
        buildInsideLock (lockTrace tokens repo) false = false) := by
  constructor
  · simp only [lockTrace]
    repeat' split
    all_goals decide
  · intro h
    simp only [lockTrace]
    repeat' split
    all_goals try decide
    all_goals simp_all

/-- Witness for C8 as amended: the `get` branch encodes outside the lock
and builds its reply outside the lock. -/
theorem c8_amended_lock_released_before_encode_witness :
    encodeInsideLock (lockTrace ["get", "k"] ⟨[]⟩) false = false ∧
      buildInsideLock (lockTrace ["get", "k"] ⟨[]⟩) false = false :=
  ⟨(c8_amended_lock_released_before_encode ["get", "k"] ⟨[]⟩).1,
    (c8_amended_lock_released_before_encode ["get", "k"] ⟨[]⟩).2 (by decide)⟩

/-- Claim C9: the quit test at line 53 is a `startswith` on the raw
decoded text, so every decoded chunk beginning with the exact lowercase
text "quit" — "quitters" and "quit extra args" included — closes the
connection without being dispatched as a command. -/
theorem c9_lowercase_quit_start_closes_without_dispatch (data : List Nat) (repo : Repository)
    (chars : List Char) (hdec : decodeUtf8 data = some chars)
    (hq : pyStartswith (String.mk chars) "quit" = true) :
    handleClientStep data repo = HandlerStep.closed := by
  simp [handleClientStep, hdec, hq]

/-- Witness for C9: the chunk "quitters" closes the connection. -/
theorem c9_lowercase_quit_start_closes_without_dispatch_witness :
    handleClientStep [113, 117, 105, 116, 116, 101, 114, 115] ⟨[]⟩ = HandlerStep.closed :=
  c9_lowercase_quit_start_closes_without_dispatch
    [113, 117, 105, 116, 116, 101, 114, 115] ⟨[]⟩
    ['q', 'u', 'i', 't', 't', 'e', 'r', 's'] rfl (by decide)

/-- Claim C10, counterexample: `delete k junk` on the empty store does
not behave exactly as `delete k` — the key-missing error reply embeds the
full received token list, so the two replies differ. -/
theorem c10_counterexample_extra_token_changes_delete_error :
    (performRepositoryOperation ["delete", "k", "junk"] ⟨[]⟩).1 ≠
      (performRepositoryOperation ["delete", "k"] ⟨[]⟩).1 := by decide

/-- Claim C10 as amended: extra trailing tokens never change which
operation runs or its effect on the store; for `get`, `gets`, `keys` and
`reset` the whole result (reply included) is identical, and for `add`,
`delete` and `aggregate` the reply is also identical whenever the
operation succeeds — but the error replies of those three embed the
received token list, so with extra tokens those error replies differ. -/
theorem c10_amended_extra_tokens_ignored_except_error_replies (repo : Repository)
    (key : String) (extra : List String) :
    performRepositoryOperation (["get", key] ++ extra) repo =
        performRepositoryOperation ["get", key] repo ∧
    performRepositoryOperation (["gets", key] ++ extra) repo =
        performRepositoryOperation ["gets", key] repo ∧
    performRepositoryOperation ("keys" :: extra) repo =
        performRepositoryOperation ["keys"] repo ∧
    performRepositoryOperation ("reset" :: extra) repo =
        performRepositoryOperation ["reset"] repo ∧
    (∀ vtok, (performRepositoryOperation (["add", key, vtok] ++ extra) repo).2 =
      (performRepositoryOperation ["add", key, vtok] repo).2) ∧
    (performRepositoryOperation (["delete", key] ++ extra) repo).2 =
        (performRepositoryOperation ["delete", key] repo).2 ∧
    (∀ func, (performRepositoryOperation (["aggregate", key, func] ++ extra) repo).2 =
      (performRepositoryOperation ["aggregate", key, func] repo).2) ∧
    (∀ vtok v, pyInt? vtok = some v →
      performRepositoryOperation (["add", key, vtok] ++ extra) repo =
        performRepositoryOperation ["add", key, vtok] repo) ∧
    (∀ repo', repo.delete key = some repo' →
      performRepositoryOperation (["delete", key] ++ extra) repo =
        performRepositoryOperation ["delete", key] repo) ∧
    (∀ func a, repo.aggregate key func = some a →
      performRepositoryOperation (["aggregate", key, func] ++ extra) repo =
        performRepositoryOperation ["aggregate", key, func] repo) := by
  have hAddL : ∀ vtok, performRepositoryOperation (["add", key, vtok] ++ extra) repo =
      (match pyInt? vtok with
       | some value =>
         ("OK, added " ++ key ++ " -> " ++ toString value ++ "\n", repo.add key value)
       | none => (typeConvReply (["add", key, vtok] ++ extra), repo)) := fun _ => rfl
  have hAddR : ∀ vtok, performRepositoryOperation ["add", key, vtok] repo =
      (match pyInt? vtok with
       | some value =>
         ("OK, added " ++ key ++ " -> " ++ toString value ++ "\n", repo.add key value)
       | none => (typeConvReply ["add", key, vtok], repo)) := fun _ => rfl
  have hDelL : performRepositoryOperation (["delete", key] ++ extra) repo =
      (match repo.delete key with
       | some repo' => ("OK, deleted key " ++ key ++ "\n", repo')
       | none => (keyMissingReply (["delete", key] ++ extra), repo)) := rfl
  have hDelR : performRepositoryOperation ["delete", key] repo =
      (match repo.delete key with
       | some repo' => ("OK, deleted key " ++ key ++ "\n", repo')
       | none => (keyMissingReply ["delete", key], repo)) := rfl
  have hAggL : ∀ func, performRepositoryOperation (["aggregate", key, func] ++ extra) repo =
      (match repo.aggregate key func with
       | some aggregated => ("OK " ++ toString aggregated ++ "\n", repo)
       | none => ("ERROR, missing key or function in " ++
           pyStrListRepr ([key, func] ++ extra) ++ "\n", repo)) := fun _ => rfl
  have hAggR : ∀ func, performRepositoryOperation ["aggregate", key, func] repo =
      (match repo.aggregate key func with
       | some aggregated => ("OK " ++ toString aggregated ++ "\n", repo)
       | none => ("ERROR, missing key or function in " ++
           pyStrListRepr [key, func] ++ "\n", repo)) := fun _ => rfl
  refine ⟨rfl, rfl, rfl, rfl, ?_, ?_, ?_, ?_, ?_, ?_⟩
  · intro vtok
    rw [hAddL, hAddR]
    cases pyInt? vtok <;> rfl
  · rw [hDelL, hDelR]
    cases repo.delete key <;> rfl
  · intro func
    rw [hAggL, hAggR]
    cases repo.aggregate key func <;> rfl
  · intro vtok v h
    rw [hAddL, hAddR, h]
  · intro repo' h
    rw [hDelL, hDelR, h]
  · intro func a h
    rw [hAggL, hAggR, h]

/-- Witness for C10 as amended: `add x 5 junk` behaves exactly as
`add x 5` on the empty store. -/
theorem c10_amended_extra_tokens_ignored_except_error_replies_witness :
    performRepositoryOperation (["add", "x", "5"] ++ ["junk"]) ⟨[]⟩ =
      performRepositoryOperation ["add", "x", "5"] ⟨[]⟩ :=
  (c10_amended_extra_tokens_ignored_except_error_replies ⟨[]⟩ "x"
    ["junk"]).2.2.2.2.2.2.2.1 "5" 5 (by decide)

end Erap
